import Mathlib

/-!
Verification development for the `gbers` Game Boy emulator front-end.

The development shallowly embeds the two decoders of the repository:

* the cartridge-header decoder of `src/src/hw/cart.rs` (regions, typed slice
  extraction, capacity tables, component table, mode flags, header checksum,
  and the two `Cartridge` constructors), and
* the instruction-decoder entry points of `src/src/hw/cpu/instr.rs`
  (prefix classification; the decode pipeline itself is an unimplemented
  stub in the source and is modelled from the specification where a claim
  needs it).

Machine integers are embedded as `Nat` (bytes are naturals, with explicit
`< 256` bounds where a claim quantifies over a byte) and `Int` (the signed
checksum accumulator, with the low 8 bits taken by `% 256`, which on a
two's-complement machine integer is exactly `sum & 0xFF`).  Fallible Rust
functions returning `Result<T, E>` are embedded as `Except` values; a Rust
panic (an out-of-range index) is embedded as `Option.none` at the indexing
site and as `Outcome.panicked` for a whole call that can return `Ok`,
return `Err`, or panic — the `ROMSlice::convert_from` index panics for
every header region, and the embedding propagates that outcome through the
whole header-decode pipeline rather than repairing it.
-/

deriving instance DecidableEq for Except

/-! ## Data model (src/src/hw/cart.rs) -/

/-- Rust `MBCNum`: memory-bank-controller kind (cart.rs lines 90-96). -/
inductive MBCNum
  | N1
  | N2
  | N3
  | N5
  deriving DecidableEq

/-- Rust `ROMNum`: ROM capacity class (cart.rs lines 67-79); the variant name is
the bank count.  The Rust enum has no explicit discriminants, so `as usize`
yields the declaration order 0..9 (see `ROMNum.discr`). -/
inductive ROMNum
  | N2
  | N4
  | N8
  | N16
  | N32
  | N64
  | N128
  | N72
  | N80
  | N96
  deriving DecidableEq

/-- Rust `RAMNum`: RAM capacity class (cart.rs lines 81-88). -/
inductive RAMNum
  | N0
  | N1_2kB
  | N1_8kB
  | N3
  | N4
  deriving DecidableEq

/-- Rust `Component`: hardware present on the cartridge board (cart.rs lines 30-44). -/
inductive Component
  | ROM (n : ROMNum)
  | MBC (n : MBCNum)
  | Battery
  | MMM
  | RAM (n : RAMNum)
  | SRAM
  | Timer
  | Rumble
  | PocketCam
  | BandaiTAMA5
  | HudsonHUC1
  | HudsonHUC3
  deriving DecidableEq

/-- Rust `CartErr` (cart.rs lines 100-108).  The `IOError(io::Error)` variant is
omitted: it only wraps file-system failures in `Cartridge::from_file`, which
no claim touches and which is not a pure function of the byte buffer. -/
inductive CartErr
  | UnknownComponents (b : Nat)
  | UnknownROMSize (n : Nat)
  | UnknownRAMSize (n : Nat)
  | BadHeaderChecksum (computed stored : Nat)
  | RegionOOB
  deriving DecidableEq

/-- Rust `KILOBYTE_BYTES` (cart.rs line 111). -/
def KILOBYTE_BYTES : Nat := 1024

/-- Rust `Region(pub usize, pub usize, PhantomData)` (cart.rs line 120): a
`[start, stop)` byte range; the phantom type parameter carries no data and is
dropped.  Field `.start` is the Rust tuple field `.0`, `.stop` is `.1`. -/
structure Region where
  start : Nat
  stop : Nat
  deriving DecidableEq

/-- Rust `Region::is_in_bounds` (cart.rs lines 145-148), verbatim:
`!(self.0 >= rom.size_bytes() || self.1 < self.0 || self.1 >= rom.size_bytes())`.
Note the strict `self.1 >= len` disjunct: a region whose exclusive upper
bound equals the buffer length is rejected. -/
def Region.is_in_bounds (r : Region) (len : Nat) : Bool :=
  !(decide (r.start ≥ len) || decide (r.stop < r.start) || decide (r.stop ≥ len))

/-! Region constants (cart.rs lines 122-140). -/

def META_ENTRY : Region := ⟨0x100, 0x104⟩
def META_LOGO : Region := ⟨0x104, 0x134⟩
def META_TITLE : Region := ⟨0x134, 0x144⟩
def META_MANUFACTURER : Region := ⟨0x13F, 0x143⟩
def META_CGB_FLAG : Region := ⟨0x143, 0x144⟩
def META_LICENSEE : Region := ⟨0x144, 0x146⟩
def META_SGB_FLAG : Region := ⟨0x146, 0x147⟩
def META_COMPONENTS : Region := ⟨0x147, 0x148⟩
def META_ROM_SIZE : Region := ⟨0x148, 0x149⟩
def META_RAM_SIZE : Region := ⟨0x149, 0x14A⟩
def META_DEST : Region := ⟨0x14A, 0x14B⟩
def META_LICENSEE_OLD : Region := ⟨0x14B, 0x14C⟩
def META_VERSION : Region := ⟨0x14C, 0x14D⟩
def META_CHECKSUM_HDR : Region := ⟨0x14D, 0x14E⟩
def META_CHECKSUM_ALL : Region := ⟨0x14E, 0x150⟩
def RANGE_CHECKSUM : Region := ⟨0x134, 0x14D⟩
def EXEC_BOOT : Region := ⟨0x0, 0x256⟩

/-- Rust `ROMSlice::try_new` (cart.rs lines 238-248): bounds-check the region
against the buffer, and on success return the sub-slice
`&rom.bytes[region.0 .. region.1]`; otherwise `Err(CartErr::RegionOOB)`. -/
def ROMSlice.try_new (buf : List Nat) (r : Region) : Except CartErr (List Nat) :=
  if r.is_in_bounds buf.length then
    .ok ((buf.drop r.start).take (r.stop - r.start))
  else
    .error .RegionOOB

/-- Rust `ROMSlice::convert_from` (cart.rs lines 254-258) for a single-byte
region, verbatim: the implementation evaluates `&self.bytes[self.region.0]`,
i.e. it indexes the already-extracted sub-slice at the *absolute* region
start.  `none` models the Rust index-out-of-bounds panic that this raises
whenever `region.0 >= region.1 - region.0` (which holds for every header
region, since they all start at offsets >= 0x100 and are at most 0x30 bytes
long). -/
def ROMSlice.convert_from_u8 (slice : List Nat) (r : Region) : Option Nat :=
  slice.get? r.start

/-- Rust `ROMSlice::convert_from` (cart.rs lines 254-258) for a
fixed-size-array region interpreted as `[u8; n]`: the expression
`&self.bytes[self.region.0]` first indexes the extracted slice at the
absolute region start — a panic (`none`) whenever that start is not below
the slice's length — and the transmute then reads `n` bytes from that
position.  (Every region this repository interprets starts at offset
`0x100` or above and extracts at most `0x30` bytes, so the index is always
out of range; the `some` case, whose overrunning read would be undefined
behaviour in Rust, is never exercised by any claim.) -/
def ROMSlice.convert_from_list (slice : List Nat) (r : Region) (n : Nat) :
    Option (List Nat) :=
  match slice.get? r.start with
  | none => none
  | some _ => some ((slice.drop r.start).take n)

/-- Execution outcome of a fallible Rust call that can also panic: a
returned `Ok` value, a returned `Err`, or a panic — in this repository
always the out-of-range index inside `ROMSlice::convert_from`. -/
inductive Outcome (α : Type) where
  | ok (a : α)
  | error (e : CartErr)
  | panicked
  deriving DecidableEq

/-- Rust `rom.region(&R)?.into()` for a single-byte region, faithfully:
`ROM::region` delegates to `ROMSlice::try_new` (bounds check and
extraction, `Err(RegionOOB)` propagated by `?`), and the inherent `into`
calls `convert_from`, whose out-of-range index is a panic. -/
def region_into_u8 (buf : List Nat) (r : Region) : Outcome Nat :=
  match ROMSlice.try_new buf r with
  | .error e => .error e
  | .ok slice =>
    match ROMSlice.convert_from_u8 slice r with
    | none => .panicked
    | some b => .ok b

/-- Rust `rom.region(&R)?.into()` for a fixed-size-array region (the
`META_TITLE` and `RANGE_CHECKSUM` reads), faithfully: bounds-checked
extraction, then `convert_from` on the extracted slice. -/
def region_into_bytes (buf : List Nat) (r : Region) : Outcome (List Nat) :=
  match ROMSlice.try_new buf r with
  | .error e => .error e
  | .ok slice =>
    match ROMSlice.convert_from_list slice r (r.stop - r.start) with
    | none => .panicked
    | some bs => .ok bs

/-! ## Capacity tables (cart.rs lines 265-355) -/

/-- Rust `Into<u8> for MBCNum` (cart.rs lines 265-274). -/
def MBCNum.intoU8 : MBCNum → Nat
  | .N1 => 1
  | .N2 => 2
  | .N3 => 3
  | .N5 => 5

/-- Rust `self as usize` on `ROMNum`: the enum has no explicit
discriminants, so the cast yields the declaration index 0..9. -/
def ROMNum.discr : ROMNum → Nat
  | .N2 => 0
  | .N4 => 1
  | .N8 => 2
  | .N16 => 3
  | .N32 => 4
  | .N64 => 5
  | .N128 => 6
  | .N72 => 7
  | .N80 => 8
  | .N96 => 9

/-- Rust `ROMNum::size_bytes` (cart.rs lines 277-280), verbatim:
`(self as usize) * _16KB` where `_16KB = 16 * KILOBYTE_BYTES`.  Because the
cast yields the declaration index and not the bank count named by the
variant, this computes e.g. `0` for `N2` and `7 * 16KiB` for `N72`. -/
def ROMNum.size_bytes (n : ROMNum) : Nat :=
  n.discr * (16 * KILOBYTE_BYTES)

/-- Rust `Into<usize> for ROMNum` (cart.rs lines 283-298). -/
def ROMNum.intoUsize : ROMNum → Nat
  | .N2 => 0
  | .N4 => 1
  | .N8 => 2
  | .N16 => 3
  | .N32 => 4
  | .N64 => 5
  | .N128 => 6
  | .N72 => 0x52
  | .N80 => 0x53
  | .N96 => 0x54

/-- Rust `TryFrom<usize> for ROMNum` (cart.rs lines 300-317). -/
def ROMNum.tryFrom (other : Nat) : Except CartErr ROMNum :=
  match other with
  | 0 => .ok .N2
  | 1 => .ok .N4
  | 2 => .ok .N8
  | 3 => .ok .N16
  | 4 => .ok .N32
  | 5 => .ok .N64
  | 6 => .ok .N128
  | 0x52 => .ok .N72
  | 0x53 => .ok .N80
  | 0x54 => .ok .N96
  | x => .error (.UnknownROMSize x)

/-- Rust `RAMNum::size_bytes` (cart.rs lines 320-328). -/
def RAMNum.size_bytes : RAMNum → Nat
  | .N0 => 0
  | .N1_2kB => 2 * KILOBYTE_BYTES
  | .N1_8kB => 8 * KILOBYTE_BYTES
  | .N3 => 32 * KILOBYTE_BYTES
  | .N4 => 128 * KILOBYTE_BYTES

/-- Rust `Into<usize> for RAMNum` (cart.rs lines 331-341). -/
def RAMNum.intoUsize : RAMNum → Nat
  | .N0 => 0
  | .N1_2kB => 1
  | .N1_8kB => 2
  | .N3 => 3
  | .N4 => 4

/-- Rust `TryFrom<usize> for RAMNum` (cart.rs lines 343-355). -/
def RAMNum.tryFrom (other : Nat) : Except CartErr RAMNum :=
  match other with
  | 0 => .ok .N0
  | 1 => .ok .N1_2kB
  | 2 => .ok .N1_8kB
  | 3 => .ok .N3
  | 4 => .ok .N4
  | x => .error (.UnknownRAMSize x)

/-! ## Header decode steps (cart.rs lines 360-440) -/

/-- The `match` at the heart of `decode_components` (cart.rs lines 368-403),
verbatim, over the byte read from `META_COMPONENTS` and the already-decoded
`_romnum`/`_ramnum`. -/
def decode_components_byte (b : Nat) (_romnum : ROMNum) (_ramnum : RAMNum) :
    Except CartErr (List Component) :=
  match b with
  | 0x0 => .ok [.ROM _romnum]
  | 0x1 => .ok [.ROM _romnum, .MBC .N1]
  | 0x2 => .ok [.ROM _romnum, .MBC .N1, .RAM _ramnum]
  | 0x3 => .ok [.ROM _romnum, .MBC .N1, .RAM _ramnum, .Battery]
  | 0x5 => .ok [.ROM _romnum, .MBC .N2]
  | 0x6 => .ok [.ROM _romnum, .MBC .N2, .Battery]
  | 0x8 => .ok [.ROM _romnum, .RAM _ramnum]
  | 0xB => .ok [.ROM _romnum, .MMM]
  | 0xC => .ok [.ROM _romnum, .MMM, .SRAM]
  | 0xD => .ok [.ROM _romnum, .MMM, .SRAM, .Battery]
  | 0xF => .ok [.ROM _romnum, .MBC .N3, .Timer, .Battery]
  | 0x10 => .ok [.ROM _romnum, .MBC .N3, .Timer, .RAM _ramnum, .Battery]
  | 0x11 => .ok [.ROM _romnum, .MBC .N3]
  | 0x12 => .ok [.ROM _romnum, .MBC .N3, .RAM _ramnum]
  | 0x13 => .ok [.ROM _romnum, .MBC .N5, .RAM _ramnum, .Battery]
  | 0x19 => .ok [.ROM _romnum, .MBC .N5]
  | 0x1A => .ok [.ROM _romnum, .MBC .N5, .RAM _ramnum]
  | 0x1B => .ok [.ROM _romnum, .MBC .N5, .RAM _ramnum, .Battery]
  | 0x1C => .ok [.ROM _romnum, .MBC .N5, .Rumble]
  | 0x1D => .ok [.ROM _romnum, .MBC .N5, .Rumble, .SRAM]
  | 0x1E => .ok [.ROM _romnum, .MBC .N5, .Rumble, .SRAM, .Battery]
  | 0x1F => .ok [.PocketCam]
  | 0xFD => .ok [.BandaiTAMA5]
  | 0xFE => .ok [.HudsonHUC3]
  | 0xFF => .ok [.HudsonHUC1]
  | x => .error (.UnknownComponents x)

/-- The component codes the `match` of `decode_components` defines, in
source order. -/
def componentCodes : List Nat :=
  [0x0, 0x1, 0x2, 0x3, 0x5, 0x6, 0x8, 0xB, 0xC, 0xD, 0xF, 0x10, 0x11, 0x12,
   0x13, 0x19, 0x1A, 0x1B, 0x1C, 0x1D, 0x1E, 0x1F, 0xFD, 0xFE, 0xFF]

/-- Rust `decode_rom_size` (cart.rs lines 408-410):
`(rom.region(&META_ROM_SIZE)?.into() as usize).try_into()`. -/
def decode_rom_size (buf : List Nat) : Outcome ROMNum :=
  match region_into_u8 buf META_ROM_SIZE with
  | .error e => .error e
  | .panicked => .panicked
  | .ok b =>
    match ROMNum.tryFrom b with
    | .error e => .error e
    | .ok n => .ok n

/-- Rust `decode_ram_size` (cart.rs lines 412-414). -/
def decode_ram_size (buf : List Nat) : Outcome RAMNum :=
  match region_into_u8 buf META_RAM_SIZE with
  | .error e => .error e
  | .panicked => .panicked
  | .ok b =>
    match RAMNum.tryFrom b with
    | .error e => .error e
    | .ok n => .ok n

/-- Rust `decode_components` (cart.rs lines 364-406): decode the ROM and RAM
capacities (`try!` propagates their failures), then read and interpret the
byte at `META_COMPONENTS` and select against the table
`decode_components_byte`. -/
def decode_components (buf : List Nat) : Outcome (List Component) :=
  match decode_rom_size buf with
  | .error e => .error e
  | .panicked => .panicked
  | .ok _romnum =>
    match decode_ram_size buf with
    | .error e => .error e
    | .panicked => .panicked
    | .ok _ramnum =>
      match region_into_u8 buf META_COMPONENTS with
      | .error e => .error e
      | .panicked => .panicked
      | .ok b =>
        match decode_components_byte b _romnum _ramnum with
        | .error e => .error e
        | .ok comps => .ok comps

/-- Rust `decode_is_cgb` (cart.rs lines 416-419): read and interpret the
`META_CGB_FLAG` byte, then `Ok(flag == 0x80)`. -/
def decode_is_cgb (buf : List Nat) : Outcome Bool :=
  match region_into_u8 buf META_CGB_FLAG with
  | .error e => .error e
  | .panicked => .panicked
  | .ok flag => .ok (flag == 0x80)

/-- Rust `decode_is_sgb` (cart.rs lines 421-424): read and interpret the
`META_SGB_FLAG` byte, then `Ok(flag == 0x3)`. -/
def decode_is_sgb (buf : List Nat) : Outcome Bool :=
  match region_into_u8 buf META_SGB_FLAG with
  | .error e => .error e
  | .panicked => .panicked
  | .ok flag => .ok (flag == 0x3)

/-- Rust `read_title` (cart.rs lines 360-362):
`rom.region(&META_TITLE)?.into()`, kept as the raw byte slice —
`String::from_utf8_lossy(...).into_owned()` is a total re-encoding of those
bytes and never fails, so it is dropped. -/
def read_title (buf : List Nat) : Outcome (List Nat) :=
  region_into_bytes buf META_TITLE

/-- The accumulator loop of `check_header_sum` (cart.rs lines 430-433):
`sum` is a signed machine integer starting at 0, and each byte contributes
`sum = sum - (b as isize) - 1`. -/
def header_sum (bytes : List Nat) : Int :=
  bytes.foldl (fun (s : Int) (b : Nat) => s - (b : Int) - 1) 0

/-- Rust `(sum & 0xFF) as u8` on a two's-complement `isize` (and equally
`sum as u8`): the low 8 bits read as an unsigned byte, i.e. `sum` modulo
256 taken in `[0, 256)`. -/
def low_byte (s : Int) : Nat :=
  (s % 256).toNat

/-- The comparison and error of `check_header_sum` (cart.rs lines 435-439)
over the extracted checksum-range bytes and stored checksum byte:
`Ok(())` when the low byte of the accumulator equals the stored byte, else
`Err(BadHeaderChecksum(sum as u8, checksum))`. -/
def check_header_sum (bytes : List Nat) (stored : Nat) : Except CartErr Unit :=
  if low_byte (header_sum bytes) = stored then
    .ok ()
  else
    .error (.BadHeaderChecksum (low_byte (header_sum bytes)) stored)

/-- Rust `check_header_sum` (cart.rs lines 426-440) over the buffer: extract
and interpret the `RANGE_CHECKSUM` bytes and the `META_CHECKSUM_HDR` byte
(both interpretations go through `convert_from`), then run the comparison
stage. -/
def check_header_sum_rom (buf : List Nat) : Outcome Unit :=
  match region_into_bytes buf RANGE_CHECKSUM with
  | .error e => .error e
  | .panicked => .panicked
  | .ok bytes =>
    match region_into_u8 buf META_CHECKSUM_HDR with
    | .error e => .error e
    | .panicked => .panicked
    | .ok checksum =>
      match check_header_sum bytes checksum with
      | .error e => .error e
      | .ok _ => .ok ()

/-! ## Cartridge construction (cart.rs lines 152-219) -/

/-- Rust `Cartridge` (cart.rs lines 46-53); the title as raw bytes, the owned
ROM byte buffer, and the decoded fields. -/
structure Cartridge where
  title : List Nat
  is_cgb : Bool
  is_sgb : Bool
  rom : List Nat
  components : List Component
  deriving DecidableEq

/-- Rust `Cartridge::new_no_check` (cart.rs lines 162-179): decode title,
components (which itself decodes the ROM/RAM capacities first), and the two
mode flags; `try!` aborts the whole construction on any failure, and a
panic in any step is the whole call panicking. -/
def Cartridge.new_no_check (buf : List Nat) : Outcome Cartridge :=
  match read_title buf with
  | .error e => .error e
  | .panicked => .panicked
  | .ok title =>
    match decode_components buf with
    | .error e => .error e
    | .panicked => .panicked
    | .ok components =>
      match decode_is_cgb buf with
      | .error e => .error e
      | .panicked => .panicked
      | .ok is_cgb =>
        match decode_is_sgb buf with
        | .error e => .error e
        | .panicked => .panicked
        | .ok is_sgb =>
          .ok { title := title, is_cgb := is_cgb, is_sgb := is_sgb,
                rom := buf, components := components }

/-- Rust `Cartridge::new` (cart.rs lines 154-160): construct via
`new_no_check`, then additionally run `check_header_sum`. -/
def Cartridge.new (buf : List Nat) : Outcome Cartridge :=
  match Cartridge.new_no_check buf with
  | .error e => .error e
  | .panicked => .panicked
  | .ok x =>
    match check_header_sum_rom buf with
    | .error e => .error e
    | .panicked => .panicked
    | .ok _ => .ok x

/-! ## Instruction decoder (src/src/hw/cpu/instr.rs) -/

/-- The `Prefix` enum of instr.rs lines 31-37 (renamed here): the four
reserved prefix bytes, with their explicit discriminants `0xCB`, `0xDD`,
`0xED`, `0xFD`. -/
inductive PreByte
  | CB
  | DD
  | ED
  | FD
  deriving DecidableEq

/-- Rust `decode::DecodeErr` (instr.rs lines 119-121) holds only the
unknown-prefix variant (renamed from `UnknownPrefix`); `WindowTooShort` is
modelled from the spec: §3 lists region-out-of-bounds (instruction stream
window too short) among the decode errors, and the source enum is still
being grown alongside its unimplemented decoder. -/
inductive DecodeErr
  | UnknownPre (b : Nat)
  | WindowTooShort
  deriving DecidableEq

/-- Rust `Into<u8> for Prefix` (instr.rs lines 82-91): each variant maps to its
reserved byte (`PREFIX_CB = Prefix::CB as u8`, and so on). -/
def PreByte.intoU8 : PreByte → Nat
  | .CB => 0xCB
  | .DD => 0xDD
  | .ED => 0xED
  | .FD => 0xFD

/-- Rust `TryFrom<u8> for Prefix` (instr.rs lines 93-104): the four reserved
bytes classify; anything else is the unknown-prefix error carrying the
byte. -/
def PreByte.tryFrom (raw : Nat) : Except DecodeErr PreByte :=
  match raw with
  | 0xCB => .ok .CB
  | 0xDD => .ok .DD
  | 0xED => .ok .ED
  | 0xFD => .ok .FD
  | x => .error (.UnknownPre x)

/-- Signed interpretation of a byte as the spec's displacement in
`[-128, 127]`. -/
def signed_byte (b : Nat) : Int :=
  if b < 128 then (b : Int) else (b : Int) - 256

/-- Modelled from the spec: one fully decoded opcode occurrence (§3
`DecodedInstruction`): prefix context (plus whether the `DD CB`/`FD CB`
double-prefix form was taken), operation identity (the selecting byte in its
prefix context), optional signed displacement, immediate bytes, and total
consumed length.  The source's `Instr` enum (instr.rs lines 54-69) carries
no length and its decoder is an unimplemented stub. -/
structure DecodedInstruction where
  pre : Option PreByte
  dblPre : Bool
  opcode : Nat
  displace : Option Int
  immed : List Nat
  consumed_length : Nat
  deriving DecidableEq

/-- Modelled from the spec: immediate-operand width of an unprefixed
opcode (§4.3 stage 4).  The spec's §8 fixtures pin only the entries a claim
exercises: opcode `0x00` (the no-operation) takes no immediate.  Entries for
other opcodes are not exercised by any claim and are taken as 0. -/
def imm_width_op (op : Nat) : Nat :=
  match op with
  | 0x00 => 0
  | _ => 0

/-- Modelled from the spec: consume `n` immediate bytes from the unconsumed
remainder of the window, failing with a bounds error when the window is too
short (§4.3: "if the window is shorter than the instruction requires,
decoding fails with a bounds error rather than reading past the end"). -/
def take_immed (rest : List Nat) (n : Nat) : Except DecodeErr (List Nat) :=
  if rest.length < n then .error .WindowTooShort else .ok (rest.take n)

/-- Modelled from the spec: the `0xDD`/`0xFD` paths of §4.3 stage 1: a
second prefix byte of `0xCB` immediately following selects the double-prefix
form (displacement byte, then opcode: 4 bytes total); otherwise the next
byte is the opcode under the displaced-index table (§8: `0xDD 0x09`
consumes 2 bytes). -/
def decode_indexed (p : PreByte) (rest : List Nat) :
    Except DecodeErr DecodedInstruction :=
  match rest with
  | [] => .error .WindowTooShort
  | 0xCB :: rest2 =>
    match rest2 with
    | d :: op :: _ =>
      .ok { pre := some p, dblPre := true, opcode := op,
            displace := some (signed_byte d), immed := [], consumed_length := 4 }
    | _ => .error .WindowTooShort
  | op :: _ =>
    .ok { pre := some p, dblPre := false, opcode := op, displace := none,
          immed := [], consumed_length := 2 }

/-- Modelled from the spec: `Instr::decode` (instr.rs lines 75-78 is the
stub `unimplemented!()`; the pipeline is §4.3).  Byte 0 is classified with
the source's prefix classification (`TryFrom<u8> for Prefix`): a reserved
prefix byte selects the corresponding prefixed path; any other byte 0 is
itself the unprefixed opcode, which determines an immediate width and hence
the consumed length `1 + width`.  `CB`- and `ED`-prefixed opcodes take no
displacement and, for the opcode §8 exercises (`0xCB 0x00`, total length 2),
no immediate. -/
def Instr.decode (w : List Nat) : Except DecodeErr DecodedInstruction :=
  match w with
  | [] => .error .WindowTooShort
  | b0 :: rest =>
    match PreByte.tryFrom b0 with
    | .ok .CB =>
      match rest with
      | [] => .error .WindowTooShort
      | op :: _ =>
        .ok { pre := some .CB, dblPre := false, opcode := op, displace := none,
              immed := [], consumed_length := 2 }
    | .ok .ED =>
      match rest with
      | [] => .error .WindowTooShort
      | op :: _ =>
        .ok { pre := some .ED, dblPre := false, opcode := op, displace := none,
              immed := [], consumed_length := 2 }
    | .ok .DD => decode_indexed .DD rest
    | .ok .FD => decode_indexed .FD rest
    | .error _ =>
      match take_immed rest (imm_width_op b0) with
      | .error e => .error e
      | .ok immed =>
        .ok { pre := none, dblPre := false, opcode := b0, displace := none,
              immed := immed, consumed_length := 1 + imm_width_op b0 }

/-! ## Concrete fixture buffers -/

/-- A buffer of length `0x150` whose header bytes are all zero except the
stored header-checksum byte at `0x14D`. -/
def zeroHeaderBuf (stored : Nat) : List Nat :=
  List.replicate 0x14D 0 ++ [stored, 0, 0]

/-- The ROM-size codes accepted by `TryFrom<usize> for ROMNum`. -/
def romCodes : List Nat :=
  [0, 1, 2, 3, 4, 5, 6, 0x52, 0x53, 0x54]

/-- The RAM-size codes accepted by `TryFrom<usize> for RAMNum`. -/
def ramCodes : List Nat :=
  [0, 1, 2, 3, 4]

/-! ## Helper lemmas -/

/-- The checksum accumulator loop subtracts each byte plus one. -/
theorem foldl_sub_succ (l : List Nat) (s : Int) :
    List.foldl (fun (acc : Int) (b : Nat) => acc - (b : Int) - 1) s l =
      s - Nat.cast l.sum - Nat.cast l.length := by
  induction l generalizing s with
  | nil => simp
  | cons a t ih =>
    rw [List.foldl_cons, ih, List.sum_cons, List.length_cons]
    omega

/-- Closed form of `header_sum`. -/
theorem header_sum_eq (l : List Nat) :
    header_sum l = -Nat.cast l.sum - Nat.cast l.length := by
  have h := foldl_sub_succ l 0
  unfold header_sum
  rw [h]
  omega

/-! ## Claims -/

/-- C1 counterexample: the component lookup table of `decode_components`
defines 25 codes, not 33 — among the 256 possible bytes at `0x147`, exactly
25 decode successfully. -/
theorem c1_component_table_counterexample :
    ((List.range 256).filter
      (fun b => (decode_components_byte b ROMNum.N2 RAMNum.N0).isOk)).length = 25
    ∧ ((List.range 256).filter
      (fun b => (decode_components_byte b ROMNum.N2 RAMNum.N0).isOk)).length ≠ 33 := by
  decide

/-- C1 (amended): for every decoded ROM/RAM capacity and every byte at
`0x147`, decoding against the lookup table of 25 known codes spanning
`0x00`-`0x1F` and `0xFD`-`0xFF` succeeds exactly on the table's codes — with
code `0x03` yielding exactly `[ROM, MBC(1), RAM, Battery]` in that order,
built from the already-decoded capacities — and any byte outside the table
fails with `UnknownComponents` carrying that byte. -/
theorem c1_component_table (r : ROMNum) (a : RAMNum) (b : Nat) (hb : b < 256) :
    decode_components_byte 0x03 r a =
      .ok [.ROM r, .MBC .N1, .RAM a, .Battery]
    ∧ (b ∈ componentCodes → (decode_components_byte b r a).isOk = true)
    ∧ (b ∉ componentCodes →
        decode_components_byte b r a = .error (.UnknownComponents b))
    ∧ componentCodes.length = 25
    ∧ (∀ c ∈ componentCodes, c ≤ 0x1F ∨ (0xFD ≤ c ∧ c ≤ 0xFF)) := by
  refine ⟨rfl, ?_, ?_, by decide, by decide⟩
  · intro hmem
    fin_cases hmem <;> rfl
  · intro hnm
    unfold decode_components_byte
    split
    all_goals first
      | rfl
      | (exact absurd (by decide) hnm)

/-- C1 witness: code `0x03` decodes to the documented list, and `0x20`
(outside the table) fails with `UnknownComponents 0x20`. -/
theorem c1_component_table_witness :
    decode_components_byte 0x03 ROMNum.N2 RAMNum.N0 =
      .ok [.ROM .N2, .MBC .N1, .RAM .N0, .Battery]
    ∧ decode_components_byte 0x20 ROMNum.N2 RAMNum.N0 =
      .error (.UnknownComponents 0x20) :=
  ⟨(c1_component_table ROMNum.N2 RAMNum.N0 0x20 (by decide)).1,
   (c1_component_table ROMNum.N2 RAMNum.N0 0x20 (by decide)).2.2.1 (by decide)⟩

/-- C3: evaluation of the code at the failing inputs.  `ROMNum::size_bytes`
multiplies the enum's declaration index — not the bank count named by the
variant — by 16 KiB, so the class decoded from code 0 maps to 0 bytes
instead of the table's 32768, and the class decoded from code `0x52` maps to
114688 bytes instead of 1179648; the unmapped-byte half of the claim does
hold (byte 7 fails with `UnknownROMSize 7`). -/
theorem c3_rom_size_bytes_bug :
    ROMNum.tryFrom 0 = .ok ROMNum.N2
    ∧ ROMNum.size_bytes ROMNum.N2 = 0
    ∧ ROMNum.size_bytes ROMNum.N2 ≠ 32768
    ∧ ROMNum.tryFrom 0x52 = .ok ROMNum.N72
    ∧ ROMNum.size_bytes ROMNum.N72 = 114688
    ∧ ROMNum.size_bytes ROMNum.N72 ≠ 1179648
    ∧ ROMNum.tryFrom 7 = .error (.UnknownROMSize 7) := by
  decide

set_option maxRecDepth 8192 in
/-- C5 counterexample: on the buffer whose checksum range `[0x134, 0x14D)`
is all zero and whose stored checksum byte at `0x14D` is `0x00`, header
checksum validation does not succeed: it panics in
`ROMSlice::convert_from` (index `0x134` into the 25-byte extracted slice)
before reaching any accumulation or comparison. -/
theorem c5_zero_checksum_counterexample :
    check_header_sum_rom (zeroHeaderBuf 0) = .panicked
    ∧ check_header_sum_rom (zeroHeaderBuf 0) ≠ .ok () := by
  decide

set_option maxRecDepth 8192 in
/-- C5 (amended): for a buffer whose bytes in `[0x134, 0x14D)` are all zero,
header checksum validation as implemented panics in
`ROMSlice::convert_from` before reaching the comparison, for stored byte
`0x00` and `0xFF` alike; the comparison stage itself (cart.rs lines
430-439), applied to the extracted 25 zero bytes and the stored byte,
computes low byte `0xE7` (each zero byte contributes `-1`; `-25 mod 256 =
231`) and so would fail with `BadHeaderChecksum(0xE7, 0x00)` for stored
`0x00`, would fail reporting both computed `0xE7` and stored `0xFF` for
stored `0xFF`, and would succeed only for stored `0xE7`. -/
theorem c5_zero_checksum :
    check_header_sum_rom (zeroHeaderBuf 0) = .panicked
    ∧ check_header_sum_rom (zeroHeaderBuf 0xFF) = .panicked
    ∧ check_header_sum (List.replicate 25 0) 0 =
        .error (.BadHeaderChecksum 0xE7 0)
    ∧ check_header_sum (List.replicate 25 0) 0xFF =
        .error (.BadHeaderChecksum 0xE7 0xFF)
    ∧ check_header_sum (List.replicate 25 0) 0xE7 = .ok () := by
  decide


set_option maxRecDepth 8192 in
/-- C2: evaluation of the code at the failing inputs.  First,
`Region::is_in_bounds` rejects `self.1 >= len`, so extracting
`META_CGB_FLAG = [0x143, 0x144)` from a `0x144`-byte buffer fails with
`RegionOOB` even though the region's end does not exceed the buffer length.
Second, on a `0x150`-byte buffer the same extraction succeeds and returns
the exact 1-byte sub-slice, but `ROMSlice::convert_from` then indexes that
extracted slice at the absolute offset `0x143` — an out-of-range index
(`none` models the Rust panic), contradicting "never panics, indexes out of
range". -/
theorem c2_region_safety_bug :
    META_CGB_FLAG.stop ≤ (List.replicate 0x144 (0 : Nat)).length
    ∧ ROMSlice.try_new (List.replicate 0x144 (0 : Nat)) META_CGB_FLAG =
        .error .RegionOOB
    ∧ ROMSlice.try_new (List.replicate 0x150 (0 : Nat)) META_CGB_FLAG = .ok [0]
    ∧ ROMSlice.convert_from_u8 [0] META_CGB_FLAG = none := by
  decide

set_option maxRecDepth 8192 in
/-- C4: the comparison stage of `check_header_sum` (cart.rs lines 430-439)
implements exactly the claimed rule — the signed accumulator folds
`sum - byte - 1` (so it ends at `-(sum of bytes) - count`), success is
precisely agreement of its low 8 bits read unsigned with the stored byte,
and otherwise it fails with `BadHeaderChecksum` carrying the computed low
byte and the stored byte — but the function as a whole never reaches that
stage: on a concrete buffer whose checksum regions are in bounds it panics
in `ROMSlice::convert_from` (index `0x134` into the 25-byte extracted
slice) right after extracting the checksum range. -/
theorem c4_header_checksum_panic :
    (∀ (bytes : List Nat) (stored : Nat),
      header_sum bytes = -Nat.cast bytes.sum - Nat.cast bytes.length
      ∧ low_byte (header_sum bytes) < 256
      ∧ (check_header_sum bytes stored = .ok ()
          ↔ low_byte (header_sum bytes) = stored)
      ∧ (check_header_sum bytes stored =
            .error (.BadHeaderChecksum (low_byte (header_sum bytes)) stored)
          ↔ low_byte (header_sum bytes) ≠ stored))
    ∧ Region.is_in_bounds RANGE_CHECKSUM (zeroHeaderBuf 0xE7).length = true
    ∧ Region.is_in_bounds META_CHECKSUM_HDR (zeroHeaderBuf 0xE7).length = true
    ∧ check_header_sum_rom (zeroHeaderBuf 0xE7) = .panicked := by
  refine ⟨?_, by decide, by decide, by decide⟩
  intro bytes stored
  refine ⟨header_sum_eq bytes, ?_, ?_, ?_⟩
  · unfold low_byte
    have hnn := Int.emod_nonneg (header_sum bytes) (by decide : (256 : Int) ≠ 0)
    have hlt := Int.emod_lt_of_pos (header_sum bytes)
      (by decide : (0 : Int) < 256)
    omega
  · unfold check_header_sum
    by_cases hc : low_byte (header_sum bytes) = stored
    · rw [if_pos hc]
      exact ⟨fun _ => hc, fun _ => rfl⟩
    · rw [if_neg hc]
      exact ⟨fun h => Except.noConfusion h, fun h => absurd h hc⟩
  · unfold check_header_sum
    by_cases hc : low_byte (header_sum bytes) = stored
    · rw [if_pos hc]
      exact ⟨fun h => Except.noConfusion h, fun h => absurd hc h⟩
    · rw [if_neg hc]
      exact ⟨fun _ => hc, fun _ => rfl⟩

set_option maxRecDepth 8192 in
/-- C7: evaluation of the flag decoders at in-bounds buffers.  Although the
comparisons in `decode_is_cgb`/`decode_is_sgb` are `flag == 0x80` and
`flag == 0x3`, the flag byte never reaches them: for every buffer passing
the bounds checks the decoders panic in `ROMSlice::convert_from` (index
`0x143` resp. `0x146` into a 1-byte extracted slice) instead of returning
`Ok`, whatever the flag bytes hold (shown here for flag bytes `0x00` and
for the claim's distinguished values `0x80`/`0x03`). -/
theorem c7_mode_flags_panic :
    Region.is_in_bounds META_CGB_FLAG (zeroHeaderBuf 0).length = true
    ∧ Region.is_in_bounds META_SGB_FLAG (zeroHeaderBuf 0).length = true
    ∧ decode_is_cgb (zeroHeaderBuf 0) = .panicked
    ∧ decode_is_sgb (zeroHeaderBuf 0) = .panicked
    ∧ decode_is_cgb ((zeroHeaderBuf 0).set 0x143 0x80) = .panicked
    ∧ decode_is_sgb ((zeroHeaderBuf 0).set 0x146 0x03) = .panicked := by
  decide

/-- C8: for each of the 10 defined ROM-size codes and 5 defined RAM-size
codes, decoding the code to a capacity class succeeds and converting the
class back (`Into<usize>`) returns the original code; the round trip also
holds starting from every capacity class; every other code fails with
`UnknownROMSize` resp. `UnknownRAMSize` carrying the code. -/
theorem c8_capacity_round_trip :
    (∀ code : Nat,
      (code ∈ romCodes →
        ∃ n, ROMNum.tryFrom code = .ok n ∧ ROMNum.intoUsize n = code)
      ∧ (code ∉ romCodes →
        ROMNum.tryFrom code = .error (.UnknownROMSize code)))
    ∧ (∀ code : Nat,
      (code ∈ ramCodes →
        ∃ m, RAMNum.tryFrom code = .ok m ∧ RAMNum.intoUsize m = code)
      ∧ (code ∉ ramCodes →
        RAMNum.tryFrom code = .error (.UnknownRAMSize code)))
    ∧ (∀ n : ROMNum, ROMNum.tryFrom (ROMNum.intoUsize n) = .ok n)
    ∧ (∀ m : RAMNum, RAMNum.tryFrom (RAMNum.intoUsize m) = .ok m)
    ∧ romCodes.length = 10 ∧ ramCodes.length = 5 := by
  refine ⟨?_, ?_, ?_, ?_, by decide, by decide⟩
  · intro code
    constructor
    · intro hmem
      fin_cases hmem
      all_goals exact ⟨_, rfl, rfl⟩
    · intro hnm
      unfold ROMNum.tryFrom
      split
      all_goals first
        | rfl
        | (exact absurd (by decide) hnm)
  · intro code
    constructor
    · intro hmem
      fin_cases hmem
      all_goals exact ⟨_, rfl, rfl⟩
    · intro hnm
      unfold RAMNum.tryFrom
      split
      all_goals first
        | rfl
        | (exact absurd (by decide) hnm)
  · intro n
    cases n <;> rfl
  · intro m
    cases m <;> rfl

/-- C8 witness: code `0x52` round-trips through `ROMNum`, and code 7 fails
on both tables. -/
theorem c8_capacity_round_trip_witness :
    ROMNum.tryFrom 7 = .error (.UnknownROMSize 7)
    ∧ RAMNum.tryFrom 7 = .error (.UnknownRAMSize 7)
    ∧ ROMNum.tryFrom (ROMNum.intoUsize .N72) = .ok .N72 :=
  ⟨(c8_capacity_round_trip.1 7).2 (by decide),
   (c8_capacity_round_trip.2.1 7).2 (by decide),
   c8_capacity_round_trip.2.2.1 .N72⟩

/-- C9: classifying a first byte as a prefix succeeds exactly for the four
reserved values `0xCB`, `0xDD`, `0xED`, `0xFD`; converting the classified
prefix back to a byte returns the original byte; every other byte fails
with the unknown-prefix error carrying that byte. -/
theorem c9_pre_classification (b : Nat) (hb : b < 256) :
    (b ∈ [0xCB, 0xDD, 0xED, 0xFD] →
      ∃ p, PreByte.tryFrom b = .ok p ∧ PreByte.intoU8 p = b)
    ∧ (b ∉ [0xCB, 0xDD, 0xED, 0xFD] →
      PreByte.tryFrom b = .error (.UnknownPre b)) := by
  constructor
  · intro hmem
    fin_cases hmem
    all_goals exact ⟨_, rfl, rfl⟩
  · intro hnm
    unfold PreByte.tryFrom
    split
    all_goals first
      | rfl
      | (exact absurd (by decide) hnm)

/-- C9 witness: `0xCB` classifies and converts back to `0xCB`; `0x00` fails
with the unknown-prefix error carrying `0x00`. -/
theorem c9_pre_classification_witness :
    (∃ p, PreByte.tryFrom 0xCB = .ok p ∧ PreByte.intoU8 p = 0xCB)
    ∧ PreByte.tryFrom 0x00 = .error (.UnknownPre 0x00) :=
  ⟨(c9_pre_classification 0xCB (by decide)).1 (by decide),
   (c9_pre_classification 0x00 (by decide)).2 (by decide)⟩

/-- C10: decoding a window whose first byte is `0x00` succeeds with the
no-operation instruction (unprefixed opcode `0x00`, no displacement, no
immediate) and consumed length 1, and decoding a window starting
`0xCB 0x00` succeeds with a `CB`-prefixed instruction and consumed
length 2. -/
theorem c10_decode_literal_cases (rest : List Nat) :
    Instr.decode (0x00 :: rest) =
      .ok { pre := none, dblPre := false, opcode := 0x00, displace := none,
            immed := [], consumed_length := 1 }
    ∧ Instr.decode (0xCB :: 0x00 :: rest) =
      .ok { pre := some .CB, dblPre := false, opcode := 0x00, displace := none,
            immed := [], consumed_length := 2 } := by
  constructor
  · show Instr.decode (0x00 :: rest) = _
    unfold Instr.decode take_immed imm_width_op
    simp [PreByte.tryFrom]
  · rfl

set_option maxRecDepth 8192 in
/-- C6: evaluation of the constructors at a buffer passing every bounds
check.  The source does expose both constructors and `new` is
`new_no_check` followed by the checksum pass, but on every buffer whose
title region is in bounds both constructors panic in `read_title`'s
`ROMSlice::convert_from` (index `0x134` into the 16-byte extracted slice)
and never return `Ok`, so neither the claimed success equivalence nor the
same-fields guarantee is observable; on a shorter buffer both return
`Err(RegionOOB)` before the checksum is ever consulted. -/
theorem c6_constructors_panic :
    Region.is_in_bounds META_TITLE (zeroHeaderBuf 0xE7).length = true
    ∧ Cartridge.new_no_check (zeroHeaderBuf 0xE7) = .panicked
    ∧ Cartridge.new (zeroHeaderBuf 0xE7) = .panicked
    ∧ Cartridge.new_no_check (List.replicate 0x100 0) = .error .RegionOOB
    ∧ Cartridge.new (List.replicate 0x100 0) = .error .RegionOOB := by
  decide